import Mathlib

/-!
Shallow embedding of `src/lab1/calc_m1.py`: a tokenizer, a token stream
cursor, and a recursive-descent evaluator for arithmetic expressions.

Modelling choices:
* Python numbers (`int` / `float`) become the tagged union `Value`
  (`vint : Int`, `vfloat : ℚ`).  Python floats are IEEE doubles; here
  float values are idealized as exact rationals.  Every claim we settle
  depends only on the numeric *kind* of float results or on exact
  integer arithmetic, which the idealization preserves.
* `ParseError` / `EvalError` become `Err.parseError` / `Err.evalError`.
  A Python exception that is neither of those two classes (the host's
  `ZeroDivisionError` escaping from `**`) is modelled as `Err.pyExn`.
* Error message strings keep the Russian text of the source; the
  positional data interpolated into some messages is dropped.
* The character-indexed scanning loop of `tokenize` and the mutually
  recursive parse functions are written with an explicit fuel parameter
  (`none` = fuel exhausted); totality of the tokenizer with fuel equal
  to the input length is proved below, and the top-level entry point
  supplies ample fuel for the parser.
-/

namespace CalcM1

/-- A runtime numeric value: Python `int` or Python `float`
(float idealized as an exact rational). -/
inductive Value where
  | vint : Int → Value
  | vfloat : ℚ → Value
deriving DecidableEq

/-- The error taxonomy.  `parseError` embeds the source's `ParseError`
(syntax errors), `evalError` embeds `EvalError` (evaluation errors).
`pyExn` marks an outcome outside those two declared kinds: an uncaught
host-language exception (or a non-numeric result) escaping to the caller. -/
inductive Err where
  | parseError : String → Err
  | evalError : String → Err
  | pyExn : String → Err
deriving DecidableEq

/-- Tokens produced by `tokenize`, mirroring the tuples
`('NUM', v) | ('OP', s) | ('LPAREN','(') | ('RPAREN',')') | ('EOF', None)`. -/
inductive Tok where
  | NUM : Value → Tok
  | OP : String → Tok
  | LPAREN : Tok
  | RPAREN : Tok
  | EOF : Tok
deriving DecidableEq

/-- The kind tag `tok[0]` of a token. -/
def Tok.kind : Tok → String
  | .NUM _ => "NUM"
  | .OP _ => "OP"
  | .LPAREN => "LPAREN"
  | .RPAREN => "RPAREN"
  | .EOF => "EOF"

/-- The payload `tok[1]` of a token, for the tokens whose payload is a
string (`eat` only ever compares payloads of such tokens). -/
def Tok.strVal : Tok → Option String
  | .OP s => some s
  | .LPAREN => some "("
  | .RPAREN => some ")"
  | _ => none

/-- Numeric value of a digit run (the `int(num_str)` of the source). -/
def natOfDigits (ds : List Char) : Nat :=
  ds.foldl (fun n c => 10 * n + (c.toNat - '0'.toNat)) 0

/-- Scan a numeric literal: `c` is the first (digit) character, `rest`
the remaining characters.  Mirrors the number branch of `tokenize`:
maximal digit run, then an optional `'.'` that must be followed by at
least one digit (else `ParseError`), then a maximal fractional digit
run.  Returns the token and the unconsumed suffix. -/
def scanNumber (c : Char) (rest : List Char) : Except Err (Tok × List Char) :=
  match rest.dropWhile Char.isDigit with
  | '.' :: rest3 =>
    match rest3 with
    | [] => .error (.parseError "Ожидалась цифра после точки в числе")
    | d :: _ =>
      if d.isDigit then
        .ok (.NUM (.vfloat ((natOfDigits (c :: rest.takeWhile Char.isDigit) : ℚ) +
            (natOfDigits (rest3.takeWhile Char.isDigit) : ℚ) /
              (10 : ℚ) ^ (rest3.takeWhile Char.isDigit).length)),
          rest3.dropWhile Char.isDigit)
      else .error (.parseError "Ожидалась цифра после точки в числе")
  | rest2 => .ok (.NUM (.vint (natOfDigits (c :: rest.takeWhile Char.isDigit))), rest2)

/-- The scanning loop of `tokenize`, one recursive call per loop
iteration, with explicit fuel.  (The source's `try/except ValueError`
around `int()`/`float()` is dead code for digit-run inputs and has no
counterpart here; Python's Unicode notions of whitespace and digit are
restricted to their ASCII cores.) -/
def tokenizeAux : Nat → List Char → List Tok → Option (Except Err (List Tok))
  | 0, _, _ => none
  | fuel + 1, cs, acc =>
    match cs with
    | [] => some (.ok (acc ++ [Tok.EOF]))
    | ch :: rest =>
      if ch.isWhitespace then tokenizeAux fuel rest acc
      else if ch.isDigit then
        match scanNumber ch rest with
        | .error e => some (.error e)
        | .ok (t, rest') => tokenizeAux fuel rest' (acc ++ [t])
      else if ch = '(' then tokenizeAux fuel rest (acc ++ [Tok.LPAREN])
      else if ch = ')' then tokenizeAux fuel rest (acc ++ [Tok.RPAREN])
      else if ch = '*' then
        match rest with
        | '*' :: rest2 => tokenizeAux fuel rest2 (acc ++ [Tok.OP "**"])
        | _ => tokenizeAux fuel rest (acc ++ [Tok.OP "*"])
      else if ch = '/' then
        match rest with
        | '/' :: rest2 => tokenizeAux fuel rest2 (acc ++ [Tok.OP "//"])
        | _ => tokenizeAux fuel rest (acc ++ [Tok.OP "/"])
      else if ch = '+' then tokenizeAux fuel rest (acc ++ [Tok.OP "+"])
      else if ch = '-' then tokenizeAux fuel rest (acc ++ [Tok.OP "-"])
      else if ch = '%' then tokenizeAux fuel rest (acc ++ [Tok.OP "%"])
      else some (.error (.parseError "Недопустимый символ"))

/-- `tokenize(expression)`: scan the whole string.  Fuel `length + 1`
suffices (proved below), so the `none` (out-of-fuel) outcome never
actually occurs. -/
def tokenize (s : String) : Option (Except Err (List Tok)) :=
  tokenizeAux (s.data.length + 1) s.data []

/-- The `TokenStream` class: the token list plus a position index. -/
structure TokenStream where
  tokens : List Tok
  pos : Nat
deriving DecidableEq

/-- `TokenStream.peek`: the token at the current position
(`tokens[pos]` when `pos < len(tokens)`), or the `('EOF', None)`
sentinel when the position is at or past the end. -/
def TokenStream.peek (ts : TokenStream) : Tok :=
  ts.tokens.getD ts.pos Tok.EOF

/-- `TokenStream.eat(kind, value=None)`: check the current token's kind
(and, when given, its payload), then advance.  Raises `ParseError` on
mismatch, exactly in the source's order: kind first, payload second. -/
def TokenStream.eat (ts : TokenStream) (kind : String) (value : Option String) :
    Except Err (Tok × TokenStream) :=
  let tok := ts.peek
  if tok.kind ≠ kind then .error (.parseError "Ожидался токен другого типа")
  else
    match value with
    | some v =>
      if tok.strVal ≠ some v then .error (.parseError "Ожидался другой токен")
      else .ok (tok, ⟨ts.tokens, ts.pos + 1⟩)
    | none => .ok (tok, ⟨ts.tokens, ts.pos + 1⟩)

/-- Is the value an `int` (the `isinstance(v, int)` of the source)? -/
def Value.isInt : Value → Bool
  | .vint _ => true
  | .vfloat _ => false

/-- The value read as a rational (Python's implicit int→float widening). -/
def Value.toQ : Value → ℚ
  | .vint n => (n : ℚ)
  | .vfloat q => q

/-- Python's numeric equality test `v == 0` (true for `0` and `0.0`). -/
def Value.eqZero : Value → Bool
  | .vint n => n = 0
  | .vfloat q => q = 0

/-- Python unary `-` on a number. -/
def negV : Value → Value
  | .vint n => .vint (-n)
  | .vfloat q => .vfloat (-q)

/-- Python unary `+` on a number (identity). -/
def posV : Value → Value := fun v => v

/-- Python binary `+` on numbers: int+int stays int, otherwise float. -/
def addV : Value → Value → Value
  | .vint a, .vint b => .vint (a + b)
  | a, b => .vfloat (a.toQ + b.toQ)

/-- Python binary `-` on numbers. -/
def subV : Value → Value → Value
  | .vint a, .vint b => .vint (a - b)
  | a, b => .vfloat (a.toQ - b.toQ)

/-- Python binary `*` on numbers. -/
def mulV : Value → Value → Value
  | .vint a, .vint b => .vint (a * b)
  | a, b => .vfloat (a.toQ * b.toQ)

/-- Python `/` (true division): always a float.  Only reached with a
nonzero divisor (the caller checks first). -/
def divV (a b : Value) : Value := .vfloat (a.toQ / b.toQ)

/-- Python `**` on numbers.
* `int ** int` with nonnegative exponent: integer power.
* `int ** int` with negative exponent: `0` as base raises the host's
  `ZeroDivisionError` (uncaught in the source — neither `ParseError`
  nor `EvalError`); otherwise a float equal to the exact rational power.
* Any float operand: float exponentiation.  A zero base with negative
  exponent again raises `ZeroDivisionError`.  An integer-valued exponent
  gives the exact rational power.  A non-integer exponent yields an
  irrational real (positive base) or a complex number (negative base) —
  both outside this model's value domain (and the complex case outside
  the spec's numeric domain), marked with `Err.pyExn`; no claim below
  depends on this last case. -/
def powV : Value → Value → Except Err Value
  | .vint a, .vint b =>
    if 0 ≤ b then .ok (.vint (a ^ b.toNat))
    else if a = 0 then
      .error (.pyExn "ZeroDivisionError: 0.0 cannot be raised to a negative power")
    else .ok (.vfloat ((a : ℚ) ^ b))
  | a, b =>
    let qa := a.toQ
    let qb := b.toQ
    if qa = 0 ∧ qb < 0 then
      .error (.pyExn "ZeroDivisionError: 0.0 cannot be raised to a negative power")
    else if qb.den = 1 then .ok (.vfloat (qa ^ qb.num))
    else .error (.pyExn "float power with non-integer exponent: not representable")

/-- `_apply_mul_op(op, a, b)`: the mul-level operator semantics.  The
division-by-zero check for `/`, `//`, `%` comes first; `//` and `%`
additionally require both operands to be `int`. -/
def apply_mul_op (op : String) (a b : Value) : Except Err Value :=
  if (op = "/" ∨ op = "//" ∨ op = "%") ∧ b.eqZero = true then
    .error (.evalError "Деление на ноль")
  else if op = "*" then .ok (mulV a b)
  else if op = "/" then .ok (divV a b)
  else if op = "//" then
    match a, b with
    | .vint x, .vint y => .ok (.vint (Int.fdiv x y))
    | _, _ => .error (.evalError "// доступно только для целых")
  else if op = "%" then
    match a, b with
    | .vint x, .vint y => .ok (.vint (Int.fmod x y))
    | _, _ => .error (.evalError "% доступно только для целых")
  else .error (.parseError "Неизвестный оператор умножения или деления")

/-- Result type of the parse-rule functions: `none` is fuel exhaustion
(never the source's behaviour, only the embedding's recursion bound);
otherwise the computed value and the advanced stream, or an error. -/
abbrev PResult := Option (Except Err (Value × TokenStream))

mutual

/-- `parse_primary(ts)`: `NUMBER | '(' expression ')'`. -/
def parse_primary : Nat → TokenStream → PResult
  | 0, _ => none
  | fuel + 1, ts =>
    match ts.peek with
    | .NUM v =>
      match ts.eat "NUM" none with
      | .error e => some (.error e)
      | .ok (_, ts1) => some (.ok (v, ts1))
    | .LPAREN =>
      match ts.eat "LPAREN" (some "(") with
      | .error e => some (.error e)
      | .ok (_, ts1) =>
        match parse_expr fuel ts1 with
        | none => none
        | some (.error e) => some (.error e)
        | some (.ok (v, ts2)) =>
          match ts2.eat "RPAREN" (some ")") with
          | .error e => some (.error e)
          | .ok (_, ts3) => some (.ok (v, ts3))
    | _ => some (.error (.parseError "Ожидалось число или скобка"))

/-- `parse_unary(ts)`: `('+'|'-') unary | primary`. -/
def parse_unary : Nat → TokenStream → PResult
  | 0, _ => none
  | fuel + 1, ts =>
    match ts.peek with
    | .OP "+" =>
      match ts.eat "OP" (some "+") with
      | .error e => some (.error e)
      | .ok (_, ts1) =>
        match parse_unary fuel ts1 with
        | none => none
        | some (.error e) => some (.error e)
        | some (.ok (v, ts2)) => some (.ok (posV v, ts2))
    | .OP "-" =>
      match ts.eat "OP" (some "-") with
      | .error e => some (.error e)
      | .ok (_, ts1) =>
        match parse_unary fuel ts1 with
        | none => none
        | some (.error e) => some (.error e)
        | some (.ok (v, ts2)) => some (.ok (negV v, ts2))
    | _ => parse_primary fuel ts

/-- `parse_pow(ts)`: `unary ('**' pow)?` — the right operand recurses
into `parse_pow` itself, and the left operand is parsed by
`parse_unary` before `'**'` is looked at. -/
def parse_pow : Nat → TokenStream → PResult
  | 0, _ => none
  | fuel + 1, ts =>
    match parse_unary fuel ts with
    | none => none
    | some (.error e) => some (.error e)
    | some (.ok (left, ts1)) =>
      match ts1.peek with
      | .OP "**" =>
        match ts1.eat "OP" (some "**") with
        | .error e => some (.error e)
        | .ok (_, ts2) =>
          match parse_pow fuel ts2 with
          | none => none
          | some (.error e) => some (.error e)
          | some (.ok (right, ts3)) =>
            match powV left right with
            | .error e => some (.error e)
            | .ok v => some (.ok (v, ts3))
      | _ => some (.ok (left, ts1))

/-- The `while` loop of `parse_mul`: fold further `* / // %` terms
into the running value, left-associatively. -/
def parse_mul_loop : Nat → Value → TokenStream → PResult
  | 0, _, _ => none
  | fuel + 1, value, ts =>
    match ts.peek with
    | .OP op =>
      if op = "*" ∨ op = "/" ∨ op = "//" ∨ op = "%" then
        match ts.eat "OP" (some op) with
        | .error e => some (.error e)
        | .ok (_, ts1) =>
          match parse_pow fuel ts1 with
          | none => none
          | some (.error e) => some (.error e)
          | some (.ok (rhs, ts2)) =>
            match apply_mul_op op value rhs with
            | .error e => some (.error e)
            | .ok v2 => parse_mul_loop fuel v2 ts2
      else some (.ok (value, ts))
    | _ => some (.ok (value, ts))

/-- `parse_mul(ts)`: `pow (('*'|'/'|'//'|'%') pow)*`, left-associative. -/
def parse_mul : Nat → TokenStream → PResult
  | 0, _ => none
  | fuel + 1, ts =>
    match parse_pow fuel ts with
    | none => none
    | some (.error e) => some (.error e)
    | some (.ok (v, ts1)) => parse_mul_loop fuel v ts1

/-- The `while` loop of `parse_add`: fold further `+`/`-` terms into
the running value, left-associatively. -/
def parse_add_loop : Nat → Value → TokenStream → PResult
  | 0, _, _ => none
  | fuel + 1, value, ts =>
    match ts.peek with
    | .OP "+" =>
      match ts.eat "OP" (some "+") with
      | .error e => some (.error e)
      | .ok (_, ts1) =>
        match parse_mul fuel ts1 with
        | none => none
        | some (.error e) => some (.error e)
        | some (.ok (rhs, ts2)) => parse_add_loop fuel (addV value rhs) ts2
    | .OP "-" =>
      match ts.eat "OP" (some "-") with
      | .error e => some (.error e)
      | .ok (_, ts1) =>
        match parse_mul fuel ts1 with
        | none => none
        | some (.error e) => some (.error e)
        | some (.ok (rhs, ts2)) => parse_add_loop fuel (subV value rhs) ts2
    | _ => some (.ok (value, ts))

/-- `parse_add(ts)`: `mul (('+'|'-') mul)*`, left-associative. -/
def parse_add : Nat → TokenStream → PResult
  | 0, _ => none
  | fuel + 1, ts =>
    match parse_mul fuel ts with
    | none => none
    | some (.error e) => some (.error e)
    | some (.ok (v, ts1)) => parse_add_loop fuel v ts1

/-- `parse_expr(ts)`: `expr → add`. -/
def parse_expr : Nat → TokenStream → PResult
  | 0, _ => none
  | fuel + 1, ts => parse_add fuel ts

end

/-- Fuel that is ample for any token list the top-level call feeds the
parser (each fuel unit is one call or loop iteration, and every six
nested calls consume at least one token). -/
def parserFuel (tokens : List Tok) : Nat := 10 * tokens.length + 10

/-- `calculate_expression(expression)`: tokenize, parse a full
expression, then require the next token to be the `EOF` sentinel. -/
def calculate_expression (s : String) : Option (Except Err Value) :=
  match tokenize s with
  | none => none
  | some (.error e) => some (.error e)
  | some (.ok tokens) =>
    match parse_expr (parserFuel tokens) ⟨tokens, 0⟩ with
    | none => none
    | some (.error e) => some (.error e)
    | some (.ok (result, ts1)) =>
      if ts1.peek.kind ≠ "EOF" then
        some (.error (.parseError "Лишние символы после корректного выражения"))
      else some (.ok result)

/-- Decidable equality of outcomes, for evaluating the embedding at
concrete inputs. -/
instance {ε α : Type} [DecidableEq ε] [DecidableEq α] : DecidableEq (Except ε α) := fun x y =>
  match x, y with
  | .error a, .error b =>
    if h : a = b then .isTrue (by rw [h]) else .isFalse (by intro hc; cases hc; exact h rfl)
  | .ok a, .ok b =>
    if h : a = b then .isTrue (by rw [h]) else .isFalse (by intro hc; cases hc; exact h rfl)
  | .error _, .ok _ => .isFalse (by intro hc; cases hc)
  | .ok _, .error _ => .isFalse (by intro hc; cases hc)

/-- Is the error the source's `ParseError` (the spec's `SyntaxError`)? -/
def Err.isParse : Err → Bool
  | .parseError _ => true
  | _ => false

/-- Is the error the source's `EvalError` (the spec's `EvaluationError`)? -/
def Err.isEval : Err → Bool
  | .evalError _ => true
  | _ => false

/-- Does evaluating `s` fail with a `ParseError` (of any message)? -/
def failsParse (s : String) : Bool :=
  match calculate_expression s with
  | some (.error e) => e.isParse
  | _ => false

/-- Does evaluating `s` fail with an `EvalError` (of any message)? -/
def failsEval (s : String) : Bool :=
  match calculate_expression s with
  | some (.error e) => e.isEval
  | _ => false

/-- Two sequential invocations of `calculate_expression` on the same
string, modelling a caller that evaluates the same input twice.  The
source module keeps no state between calls (no module-level mutable
variables; the token list and cursor are created afresh inside each
call), which is what lets a pure function embed it. -/
def evaluateTwice (s : String) : Option (Except Err Value) × Option (Except Err Value) :=
  (calculate_expression s, calculate_expression s)

/-! ### Termination of the tokenizer -/

/-- Dropping a prefix cannot lengthen a list. -/
theorem length_dropWhile_le (p : Char → Bool) :
    ∀ l : List Char, (l.dropWhile p).length ≤ l.length := by
  intro l
  induction l with
  | nil => simp [List.dropWhile]
  | cons c cs ih =>
    rw [List.dropWhile]
    cases p c with
    | true => exact Nat.le_succ_of_le ih
    | false => exact Nat.le_refl _

/-- A successful number scan never returns more characters than it was
given: the scan only consumes. -/
theorem scanNumber_length_le (c : Char) (rest : List Char) (t : Tok)
    (rest' : List Char) (h : scanNumber c rest = .ok (t, rest')) :
    rest'.length ≤ rest.length := by
  have hdw : (rest.dropWhile Char.isDigit).length ≤ rest.length :=
    length_dropWhile_le _ _
  unfold scanNumber at h
  split at h
  next x rest3 heq =>
    rw [heq] at hdw
    simp only [List.length_cons] at hdw
    split at h
    · exact absurd h (by simp)
    next d tail =>
      split at h
      · simp only [Except.ok.injEq, Prod.mk.injEq] at h
        have h2 := length_dropWhile_le Char.isDigit (d :: tail)
        simp only [List.length_cons] at h2 hdw
        rw [← h.2]
        omega
      · exact absurd h (by simp)
  next =>
    simp only [Except.ok.injEq, Prod.mk.injEq] at h
    rw [← h.2]
    exact hdw

/-- With fuel exceeding the number of remaining characters the scanning
loop never runs out: every iteration either finishes, errors, or
consumes at least one character. -/
theorem tokenizeAux_ne_none : ∀ (fuel : Nat) (cs : List Char) (acc : List Tok),
    cs.length < fuel → tokenizeAux fuel cs acc ≠ none := by
  intro fuel
  induction fuel with
  | zero => intro cs acc h; exact absurd h (Nat.not_lt_zero _)
  | succ n ih =>
    intro cs acc h
    cases cs with
    | nil => simp [tokenizeAux]
    | cons ch rest =>
      have hr : rest.length < n := by
        simp only [List.length_cons] at h
        omega
      simp only [tokenizeAux]
      split_ifs with hws hdig hlp hrp hst hsl hpl hmn hpc
      · exact ih rest acc hr
      · cases hscan : scanNumber ch rest with
        | error e => simp [hscan]
        | ok p =>
          obtain ⟨t, rest'⟩ := p
          simp only [hscan]
          exact ih rest' (acc ++ [t])
            (Nat.lt_of_le_of_lt (scanNumber_length_le ch rest t rest' hscan) hr)
      · exact ih rest (acc ++ [Tok.LPAREN]) hr
      · exact ih rest (acc ++ [Tok.RPAREN]) hr
      · split
        next a b =>
          simp only [List.length_cons] at hr
          exact ih b (acc ++ [Tok.OP "**"]) (by omega)
        next => exact ih rest (acc ++ [Tok.OP "*"]) hr
      · split
        next a b =>
          simp only [List.length_cons] at hr
          exact ih b (acc ++ [Tok.OP "//"]) (by omega)
        next => exact ih rest (acc ++ [Tok.OP "/"]) hr
      · exact ih rest (acc ++ [Tok.OP "+"]) hr
      · exact ih rest (acc ++ [Tok.OP "-"]) hr
      · exact ih rest (acc ++ [Tok.OP "%"]) hr
      · simp

/-- Floor-convention modulo with a negative divisor is nonpositive
(the counterpart of `Int.fmod_nonneg'` for the other sign). -/
theorem fmod_nonpos_of_neg : ∀ (x : Int) {y : Int}, y < 0 → x.fmod y ≤ 0 := by
  intro x y hy
  match x, y with
  | _, Int.ofNat n =>
    exact absurd hy (Int.not_lt.mpr (Int.ofNat_nonneg n))
  | Int.ofNat 0, Int.negSucc n =>
    show Int.fmod 0 _ ≤ 0
    simp
  | Int.ofNat (m+1), Int.negSucc n =>
    show Int.subNatNat (m % (n+1)) n ≤ 0
    rw [Int.subNatNat_eq_coe]
    have h2 : m % (n+1) < n+1 := Nat.mod_lt m (Nat.succ_pos n)
    omega
  | Int.negSucc m, Int.negSucc n =>
    show -(Int.ofNat ((m+1) % (n+1))) ≤ 0
    have h3 : (0 : Int) ≤ Int.ofNat ((m+1) % (n+1)) := Int.ofNat_nonneg _
    omega

/-! ### The claims -/

/-- C10: `tokenize` terminates on every input string: each loop
iteration either fails or consumes at least one character, so fuel
`length + 1` always suffices and the scan returns a token list or an
error (never the out-of-fuel marker). -/
theorem tokenize_terminates (s : String) : (tokenize s).isSome = true := by
  unfold tokenize
  cases htk : tokenizeAux (s.data.length + 1) s.data [] with
  | none => exact absurd htk (tokenizeAux_ne_none _ _ _ (Nat.lt_succ_self _))
  | some r => rfl

/-- C8: `"2 3"` (trailing token), `"2 +"` (missing operand), `"(2+3"`
(unmatched parenthesis), `".5"` (number starting with a dot) and
`"12."` (number ending with a dot) all fail with the syntax-error kind
(`ParseError`). -/
theorem syntax_error_inputs :
    failsParse "2 3" = true ∧ failsParse "2 +" = true ∧ failsParse "(2+3" = true ∧
    failsParse ".5" = true ∧ failsParse "12." = true := by
  exact ⟨by decide, by decide, by decide, by decide, by decide⟩

/-- C9: evaluation is deterministic and stateless: evaluating the same
string twice (modelled by `evaluateTwice`) yields identical outcomes.
The embedding is a pure function, which is faithful because the source
module has no mutable state outside a single call (each call builds its
own token list and cursor). -/
theorem evaluate_deterministic (s : String) :
    (evaluateTwice s).1 = (evaluateTwice s).2 := rfl

/-- C6 (failing input): on `"0 ** -1"` the code raises the host's
`ZeroDivisionError` from `left ** right` — an error that is neither
`ParseError` nor `EvalError` — contradicting the claim that only the
two declared error kinds can escape `evaluate`. -/
theorem pow_zero_neg_exp_escapes :
    calculate_expression "0 ** -1" =
      some (.error (.pyExn "ZeroDivisionError: 0.0 cannot be raised to a negative power")) ∧
    (Err.pyExn "ZeroDivisionError: 0.0 cannot be raised to a negative power").isParse = false ∧
    (Err.pyExn "ZeroDivisionError: 0.0 cannot be raised to a negative power").isEval = false := by
  exact ⟨by decide, rfl, rfl⟩

/-- C7: `/` always produces a float: for any operands with a nonzero
right operand, `_apply_mul_op` with `/` returns the float-kind value
`a / b` (true division), whatever the operand kinds. -/
theorem truediv_always_float (a b : Value) (hz : b.eqZero = false) :
    apply_mul_op "/" a b = .ok (.vfloat (a.toQ / b.toQ)) := by
  unfold apply_mul_op
  rw [if_neg (by simp [hz]), if_neg (by decide), if_pos rfl]
  rfl

/-- Witness for C7 at division of the integers 1 and 2. -/
theorem truediv_always_float_witness :
    apply_mul_op "/" (.vint 1) (.vint 2) =
      .ok (.vfloat ((Value.vint 1).toQ / (Value.vint 2).toQ)) :=
  truediv_always_float (.vint 1) (.vint 2) (by decide)

/-- C2: for `/`, `//` and `%`, a right operand equal to zero (integer
`0` or float `0.0`) makes `_apply_mul_op` fail with the evaluation
error "division by zero", and this check precedes the integer-only
check — so `5 / 0`, `5 // 0`, `5 % 0`, and `//`/`%` with a zero divisor
on float operands, all report division by zero. -/
theorem div_by_zero_priority :
    (∀ (op : String) (a b : Value), (op = "/" ∨ op = "//" ∨ op = "%") →
      b.eqZero = true → apply_mul_op op a b = .error (.evalError "Деление на ноль"))
    ∧ calculate_expression "5 / 0" = some (.error (.evalError "Деление на ноль"))
    ∧ calculate_expression "5 // 0" = some (.error (.evalError "Деление на ноль"))
    ∧ calculate_expression "5 % 0" = some (.error (.evalError "Деление на ноль"))
    ∧ calculate_expression "5.0 % 0" = some (.error (.evalError "Деление на ноль"))
    ∧ calculate_expression "5.0 // 0" = some (.error (.evalError "Деление на ноль")) := by
  refine ⟨?_, by decide, by decide, by decide, by decide, by decide⟩
  intro op a b hop hz
  unfold apply_mul_op
  rw [if_pos ⟨hop, hz⟩]

/-- Witness for C2: float `%` with float zero divisor reports division
by zero, not the integer-only restriction. -/
theorem div_by_zero_priority_witness :
    apply_mul_op "%" (.vfloat 5) (.vfloat 0) = .error (.evalError "Деление на ноль") :=
  div_by_zero_priority.1 "%" (.vfloat 5) (.vfloat 0) (Or.inr (Or.inr rfl)) (by decide)

/-- C3: `//` and `%` require both operands to be integers: with a
nonzero divisor and at least one float operand they fail with the
evaluation error; on two integers `//` is floor division and `%` the
floor-convention modulo whose sign follows the divisor; and
`7 // 2 = 3`, `7 % 2 = 1`, while `7.0 // 2` fails with `EvalError`. -/
theorem floordiv_mod_int_only :
    (∀ a b : Value, b.eqZero = false → (a.isInt = false ∨ b.isInt = false) →
      apply_mul_op "//" a b = .error (.evalError "// доступно только для целых") ∧
      apply_mul_op "%" a b = .error (.evalError "% доступно только для целых"))
    ∧ (∀ x y : Int, y ≠ 0 →
      apply_mul_op "//" (.vint x) (.vint y) = .ok (.vint (x.fdiv y)) ∧
      apply_mul_op "%" (.vint x) (.vint y) = .ok (.vint (x.fmod y)) ∧
      (0 < y → 0 ≤ x.fmod y) ∧ (y < 0 → x.fmod y ≤ 0))
    ∧ calculate_expression "7 // 2" = some (.ok (.vint 3))
    ∧ calculate_expression "7 % 2" = some (.ok (.vint 1))
    ∧ failsEval "7.0 // 2" = true := by
  refine ⟨?_, ?_, by decide, by decide, by decide⟩
  · intro a b hz hfl
    constructor
    · unfold apply_mul_op
      rw [if_neg (by simp [hz]), if_neg (by decide), if_neg (by decide), if_pos rfl]
      cases a <;> cases b <;> simp_all [Value.isInt]
    · unfold apply_mul_op
      rw [if_neg (by simp [hz]), if_neg (by decide), if_neg (by decide), if_neg (by decide),
        if_pos rfl]
      cases a <;> cases b <;> simp_all [Value.isInt]
  · intro x y hy
    have hz : (Value.vint y).eqZero = false := by simp [Value.eqZero, hy]
    refine ⟨?_, ?_, fun hpos => Int.fmod_nonneg' x hpos, fun hneg => fmod_nonpos_of_neg x hneg⟩
    · unfold apply_mul_op
      rw [if_neg (by simp [hz]), if_neg (by decide), if_neg (by decide), if_pos rfl]
    · unfold apply_mul_op
      rw [if_neg (by simp [hz]), if_neg (by decide), if_neg (by decide), if_neg (by decide),
        if_pos rfl]

/-- Witness for C3: a float left operand of `//` with nonzero integer
divisor hits the integer-only restriction, and `7 % 2` computes the
floor-convention modulo. -/
theorem floordiv_mod_int_only_witness :
    apply_mul_op "//" (.vfloat 7) (.vint 2) =
      .error (.evalError "// доступно только для целых") ∧
    apply_mul_op "%" (.vint 7) (.vint 2) = .ok (.vint ((7 : Int).fmod 2)) :=
  ⟨(floordiv_mod_int_only.1 (.vfloat 7) (.vint 2) (by decide) (Or.inl rfl)).1,
   (floordiv_mod_int_only.2.1 7 2 (by decide)).2.1⟩

/-- C1: the power operator is right-associative: for all numeric
operands `a`, `b`, `c` the token form of `a ** b ** c` evaluates as
`a ** (b ** c)` (the right operand of `**` recursively reinvoking the
power rule), and `evaluate("2 ** 3 ** 2") = 512`, not 64. -/
theorem pow_right_assoc :
    (∀ a b c : Value,
      parse_expr 20 ⟨[Tok.NUM a, Tok.OP "**", Tok.NUM b, Tok.OP "**", Tok.NUM c, Tok.EOF], 0⟩ =
        some (match powV b c with
          | .error e => .error e
          | .ok r =>
            match powV a r with
            | .error e => .error e
            | .ok v =>
              .ok (v, ⟨[Tok.NUM a, Tok.OP "**", Tok.NUM b, Tok.OP "**", Tok.NUM c, Tok.EOF], 5⟩)))
    ∧ calculate_expression "2 ** 3 ** 2" = some (.ok (.vint 512)) := by
  constructor
  · intro a b c
    cases hbc : powV b c with
    | error e =>
      simp [parse_expr, parse_add, parse_mul, parse_pow, parse_unary, parse_primary,
        parse_mul_loop, parse_add_loop, TokenStream.peek, TokenStream.eat, Tok.kind,
        Tok.strVal, hbc]
    | ok r =>
      cases har : powV a r with
      | error e =>
        simp [parse_expr, parse_add, parse_mul, parse_pow, parse_unary, parse_primary,
          parse_mul_loop, parse_add_loop, TokenStream.peek, TokenStream.eat, Tok.kind,
          Tok.strVal, hbc, har]
      | ok v =>
        simp [parse_expr, parse_add, parse_mul, parse_pow, parse_unary, parse_primary,
          parse_mul_loop, parse_add_loop, TokenStream.peek, TokenStream.eat, Tok.kind,
          Tok.strVal, hbc, har]
  · decide

/-- C5 counterexample: `evaluate("-2 ** 2")` returns `4`, not the `-4`
the claim requires: the unary minus is consumed by `parse_unary` while
producing the *left* operand of `**`, so it binds the base, not the
whole power. -/
theorem neg_pow_cex :
    calculate_expression "-2 ** 2" = some (.ok (.vint 4)) ∧
    Value.vint 4 ≠ Value.vint (-4) := ⟨by decide, by decide⟩

/-- C5 amended: a unary minus written in front of a power expression
negates the base, not the result: the token form of `-a ** b`
evaluates as `(-a) ** b` (so precedence on the left side is
unary > pow, contrary to the claimed pow > unary), and
`evaluate("-2 ** 2") = 4`. -/
theorem unary_minus_applies_to_base :
    (∀ a b : Value,
      parse_expr 20 ⟨[Tok.OP "-", Tok.NUM a, Tok.OP "**", Tok.NUM b, Tok.EOF], 0⟩ =
        some (match powV (negV a) b with
          | .error e => .error e
          | .ok v => .ok (v, ⟨[Tok.OP "-", Tok.NUM a, Tok.OP "**", Tok.NUM b, Tok.EOF], 4⟩)))
    ∧ calculate_expression "-2 ** 2" = some (.ok (.vint 4)) := by
  constructor
  · intro a b
    cases hab : powV (negV a) b with
    | error e =>
      simp [parse_expr, parse_add, parse_mul, parse_pow, parse_unary, parse_primary,
        parse_mul_loop, parse_add_loop, TokenStream.peek, TokenStream.eat, Tok.kind,
        Tok.strVal, hab]
    | ok v =>
      simp [parse_expr, parse_add, parse_mul, parse_pow, parse_unary, parse_primary,
        parse_mul_loop, parse_add_loop, TokenStream.peek, TokenStream.eat, Tok.kind,
        Tok.strVal, hab]
  · decide

/-- C4 counterexample: two integer operands of `**` can produce a
float-kind result: `2 ** -1` (integer operands `2` and `-1`) evaluates
to the float `1/2`, so the promotion of `**` is not identical to `*`. -/
theorem int_pow_neg_exp_cex :
    powV (.vint 2) (.vint (-1)) = .ok (.vfloat (((2 : Int) : ℚ) ^ (-1 : Int))) ∧
    (Value.vfloat (((2 : Int) : ℚ) ^ (-1 : Int))).isInt = false ∧
    (match calculate_expression "2 ** -1" with
      | some (.ok v) => v.isInt
      | _ => true) = false := by
  exact ⟨rfl, rfl, rfl⟩

/-- C4 amended: numeric-kind promotion for `+`, `-` (unary and binary)
is identical to `*` (integer with integer yields integer, any float
yields float); for `**`, integer operands yield an integer exactly when
the exponent is nonnegative — a negative integer exponent yields a
float for nonzero base (and an escaping `ZeroDivisionError` on zero
base) — while a float base with an integer exponent yields a float. -/
theorem numeric_promotion :
    (∀ a b : Value,
      (addV a b).isInt = (a.isInt && b.isInt) ∧
      (subV a b).isInt = (a.isInt && b.isInt) ∧
      (mulV a b).isInt = (a.isInt && b.isInt))
    ∧ (∀ a : Value, (negV a).isInt = a.isInt ∧ (posV a).isInt = a.isInt)
    ∧ (∀ a b : Int, 0 ≤ b → powV (.vint a) (.vint b) = .ok (.vint (a ^ b.toNat)))
    ∧ (∀ a b : Int, b < 0 → a ≠ 0 → powV (.vint a) (.vint b) = .ok (.vfloat ((a : ℚ) ^ b)))
    ∧ (∀ (q : ℚ) (b : Int), ¬(q = 0 ∧ b < 0) →
        powV (.vfloat q) (.vint b) = .ok (.vfloat (q ^ b))) := by
  refine ⟨?_, ?_, ?_, ?_, ?_⟩
  · intro a b
    cases a <;> cases b <;> simp [addV, subV, mulV, Value.isInt]
  · intro a
    cases a <;> simp [negV, posV, Value.isInt]
  · intro a b hb
    simp only [powV]
    rw [if_pos hb]
  · intro a b hb ha
    simp only [powV]
    rw [if_neg (Int.not_le.mpr hb), if_neg ha]
  · intro q b h
    simp only [powV, Value.toQ]
    rw [if_neg (by rw [Int.cast_lt_zero]; exact h), if_pos (Rat.den_intCast b),
      Rat.num_intCast]

/-- Witness for C4: `2 ** 3` stays integer, `2 ** -1` becomes float,
and a float base with integer exponent stays float. -/
theorem numeric_promotion_witness :
    powV (.vint 2) (.vint 3) = .ok (.vint ((2 : Int) ^ (3 : Int).toNat)) ∧
    powV (.vint 2) (.vint (-1)) = .ok (.vfloat (((2 : Int) : ℚ) ^ (-1 : Int))) ∧
    powV (.vfloat 3) (.vint 2) = .ok (.vfloat ((3 : ℚ) ^ (2 : Int))) :=
  ⟨numeric_promotion.2.2.1 2 3 (by decide),
   numeric_promotion.2.2.2.1 2 (-1) (by decide) (by decide),
   numeric_promotion.2.2.2.2 3 2 (by decide)⟩

end CalcM1
